import Mathlib

/-!
Verification of the change-classifier subsystem of `semantic-create-pr`.

The JavaScript source (`lib.js`) is shallowly embedded here.  JavaScript
strings are modelled as `List Char`; JavaScript numbers arising from
`parseInt` on captured digit groups are modelled as `Nat`; `null` /
possibly-failing subprocess results are modelled as `Option`.

Conventions:
* `lit s` is the character list of a Lean string literal, used for the
  literal strings of the source.
* Regular-expression matching in the source is limited to a handful of fixed
  patterns; each is embedded by a dedicated scanning function whose doc
  comment explains why it coincides with the JavaScript regex semantics
  (leftmost match, greedy quantifiers with backtracking).
-/

/-- JavaScript strings are modelled as lists of characters. -/
abbrev Str := List Char

/-- Character list of a Lean string literal. -/
def lit (s : String) : Str := s.data

/-- Embedding of JS `String.startsWith`: `strStarts hay pre` holds when `hay` starts with `pre` (JS `String.startsWith`). -/
def strStarts : Str → Str → Bool
  | _, [] => true
  | [], _ :: _ => false
  | c :: t, d :: u => c == d && strStarts t u

/-- Embedding of JS `String.includes`: `strIncludes hay needle` holds when `needle` occurs as a contiguous substring of
`hay` (JS `String.includes`). -/
def strIncludes : Str → Str → Bool
  | [], needle => needle.isEmpty
  | c :: t, needle => strStarts (c :: t) needle || strIncludes t needle

/-- JS `String.toLowerCase` (ASCII case folding suffices for the fixed
lower-case keywords the source tests for). -/
def toLowerStr (s : Str) : Str := s.map Char.toLower

/-- The ASCII whitespace characters recognised by JS `String.trim` and the
regex class `\s` (the rare non-ASCII Unicode spaces are not modelled). -/
def jsIsSpace (c : Char) : Bool :=
  c == ' ' || c == '\t' || c == '\n' || c == '\r' || c == '\x0b' || c == '\x0c'

/-- JS `String.trim`: strip whitespace from both ends. -/
def jsTrim (s : Str) : Str :=
  ((s.dropWhile jsIsSpace).reverse.dropWhile jsIsSpace).reverse

/-- JS `String.split('\n')` on a character list. -/
def splitOnNL : Str → List Str
  | [] => [[]]
  | c :: t =>
    if c = '\n' then [] :: splitOnNL t
    else
      match splitOnNL t with
      | [] => [[c]]
      | h :: r => (c :: h) :: r

/-- JS `Array.join('\n')`. -/
def joinNL : List Str → Str
  | [] => []
  | [x] => x
  | x :: y :: ys => x ++ '\n' :: joinNL (y :: ys)

/-- JS `Array.join('; ')`. -/
def joinSemi : List Str → Str
  | [] => []
  | [x] => x
  | x :: y :: ys => x ++ ';' :: ' ' :: joinSemi (y :: ys)

/-- Numeric value of a list of decimal digits (the value `parseInt` returns
on the all-digit capture groups produced by the source's regexes). -/
def digitsVal (s : Str) : Nat :=
  s.foldl (fun acc c => 10 * acc + (c.toNat - '0'.toNat)) 0

/-- JS `parseInt` as used by the source: the argument is a capture group
consisting of decimal digits, whose leading digit run gives the value. -/
def parseIntJS (s : Str) : Nat := digitsVal (s.takeWhile Char.isDigit)

/-- JS `parseInt`, made explicitly fallible: `none` models the `NaN` result
on an input with no leading digit.  Used to show the classifier's number
parsing can never actually fail (claim C8). -/
def parseIntOpt (s : Str) : Option Nat :=
  let ds := s.takeWhile Char.isDigit
  if ds.isEmpty then none else some (digitsVal ds)

/-- JS number-to-string conversion for the natural numbers interpolated into
the template literals of the source. -/
def natToStr (n : Nat) : Str :=
  if _h : n < 10 then [Nat.digitChar n]
  else natToStr (n / 10) ++ [Nat.digitChar (n % 10)]
decreasing_by exact Nat.div_lt_self (by omega) (by omega)

/-- First match of the regex `(\d+)L` (for a literal tail `L` drawn from
`alts`) against a string, returning the capture group.

JS `String.match` finds the leftmost starting position where the pattern
matches; the scan below likewise advances one character at a time.  At any
position, `\d+` is greedy: it first tries the maximal digit run.  Every
alternative literal used by the source starts with a space, so a shorter,
backtracked digit run would be followed by a digit rather than a space and
can never match; hence only the maximal run needs to be checked, and the
capture group is exactly that run. -/
def matchNumThen (alts : List Str) : Str → Option Str
  | [] => none
  | c :: t =>
    let ds := (c :: t).takeWhile Char.isDigit
    let rest := (c :: t).dropWhile Char.isDigit
    if !ds.isEmpty && alts.any (fun a => strStarts rest a) then some ds
    else matchNumThen alts t

/-- Truthiness of a JS value that is either `null` or a string: `null` and
the empty string are falsy. -/
def truthy (o : Option Str) : Bool :=
  match o with
  | none => false
  | some s => !s.isEmpty

/-- JS `x || ''`. -/
def orEmpty (o : Option Str) : Str := o.getD []

/-- The numeric metrics record built inside `analyzeSeverity`
(`{ linesChanged, filesChanged, insertions, deletions }`). -/
structure Metrics where
  linesChanged : Nat
  filesChanged : Nat
  insertions : Nat
  deletions : Nat
deriving Repr, DecidableEq

/-- Result record of `analyzeSeverity`
(`{ level, reasoning, metrics }`; `reasoning` is already `'; '`-joined). -/
structure SeverityResult where
  level : Str
  reasoning : Str
  metrics : Metrics
deriving Repr, DecidableEq

/-- Source expression `fileStats?.match(/(\d+) insertion/)`. -/
def insertionsCapture (fileStats : Option Str) : Option Str :=
  fileStats.bind (matchNumThen [lit " insertion"])

/-- Source expression `fileStats?.match(/(\d+) deletion/)`. -/
def deletionsCapture (fileStats : Option Str) : Option Str :=
  fileStats.bind (matchNumThen [lit " deletion"])

/-- Source expression `fileStats?.match(/(\d+) files? changed/)` (the optional `s?` is greedy,
so the plural alternative is tried first). -/
def filesCapture (fileStats : Option Str) : Option Str :=
  fileStats.bind (matchNumThen [lit " files changed", lit " file changed"])

/-- The metrics-extraction part of `analyzeSeverity` (lines 190-198 of the
source), under the name `extractMetrics` the specification gives to it:
three independent first-occurrence pattern searches over `statText`, each
defaulting to `0` on non-match, with `linesChanged = insertions + deletions`. -/
def extractMetrics (statText : Str) : Metrics :=
  let insertions := match matchNumThen [lit " insertion"] statText with
    | some ds => parseIntJS ds
    | none => 0
  let deletions := match matchNumThen [lit " deletion"] statText with
    | some ds => parseIntJS ds
    | none => 0
  let filesChanged := match matchNumThen [lit " files changed", lit " file changed"] statText with
    | some ds => parseIntJS ds
    | none => 0
  ⟨insertions + deletions, filesChanged, insertions, deletions⟩

/-- The `criticalKeywords` list of `analyzeSeverity`. -/
def criticalKeywords : List Str :=
  [lit "breaking", lit "security", lit "critical", lit "vulnerability", lit "exploit"]

/-- Source flag `hasCriticalKeyword`: some critical keyword occurs (case-insensitively)
in the commit messages. -/
def hasCriticalKeywordF (commits : Option Str) : Bool :=
  criticalKeywords.any (fun kw => strIncludes (toLowerStr (orEmpty commits)) kw)

/-- Source flag `hasAPIChange`. -/
def hasAPIChangeF (diffOutput : Option Str) : Bool :=
  strIncludes (toLowerStr (orEmpty diffOutput)) (lit "export") ||
  strIncludes (toLowerStr (orEmpty diffOutput)) (lit "public")

/-- Source flag `hasConfigChange`. -/
def hasConfigChangeF (diffOutput : Option Str) : Bool :=
  strIncludes (toLowerStr (orEmpty diffOutput)) (lit "config") ||
  strIncludes (toLowerStr (orEmpty diffOutput)) (lit ".json") ||
  strIncludes (toLowerStr (orEmpty diffOutput)) (lit ".env")

/-- Source flag `hasDatabaseChange`. -/
def hasDatabaseChangeF (diffOutput : Option Str) : Bool :=
  strIncludes (toLowerStr (orEmpty diffOutput)) (lit "schema") ||
  strIncludes (toLowerStr (orEmpty diffOutput)) (lit "migration") ||
  strIncludes (toLowerStr (orEmpty diffOutput)) (lit "database")

/-- Source flag `hasAuthChange`. -/
def hasAuthChangeF (diffOutput : Option Str) : Bool :=
  strIncludes (toLowerStr (orEmpty diffOutput)) (lit "auth") ||
  strIncludes (toLowerStr (orEmpty diffOutput)) (lit "permission") ||
  strIncludes (toLowerStr (orEmpty diffOutput)) (lit "token")

/-- Source function `analyzeSeverity(diffOutput, fileStats, commits)`: the severity
classifier.  Metrics come from `fileStats` (optional chaining `?.match`
modelled by `Option.bind`), keyword checks from the lower-cased commit and
diff texts, and the four tiers form an ordered first-match decision list. -/
def analyzeSeverity (diffOutput fileStats commits : Option Str) : SeverityResult :=
  let insertions := match insertionsCapture fileStats with
    | some ds => parseIntJS ds
    | none => 0
  let deletions := match deletionsCapture fileStats with
    | some ds => parseIntJS ds
    | none => 0
  let totalChanges := insertions + deletions
  let filesChanged := match filesCapture fileStats with
    | some ds => parseIntJS ds
    | none => 0
  let metrics : Metrics := ⟨totalChanges, filesChanged, insertions, deletions⟩
  if hasCriticalKeywordF commits || hasAuthChangeF diffOutput || hasDatabaseChangeF diffOutput then
    let reasoning :=
      (if hasCriticalKeywordF commits then [lit "Critical keywords in commits"] else []) ++
      (if hasAuthChangeF diffOutput then [lit "Authentication/authorization changes"] else []) ++
      (if hasDatabaseChangeF diffOutput then [lit "Database schema changes"] else [])
    ⟨lit "Critical", joinSemi reasoning, metrics⟩
  else if decide (500 < totalChanges) || decide (10 < filesChanged) || hasAPIChangeF diffOutput then
    let reasoning :=
      (if decide (500 < totalChanges) then
        [lit "Large number of changes (" ++ natToStr totalChanges ++ lit " lines)"] else []) ++
      (if decide (10 < filesChanged) then
        [lit "Multiple files affected (" ++ natToStr filesChanged ++ lit " files)"] else []) ++
      (if hasAPIChangeF diffOutput then [lit "Public API modifications"] else [])
    ⟨lit "High", joinSemi reasoning, metrics⟩
  else if decide (100 < totalChanges) || decide (3 < filesChanged) || hasConfigChangeF diffOutput then
    let reasoning :=
      (if decide (100 < totalChanges) then
        [lit "Moderate changes (" ++ natToStr totalChanges ++ lit " lines)"] else []) ++
      (if decide (3 < filesChanged) then
        [lit "Several files modified (" ++ natToStr filesChanged ++ lit " files)"] else []) ++
      (if hasConfigChangeF diffOutput then [lit "Configuration changes"] else [])
    ⟨lit "Medium", joinSemi reasoning, metrics⟩
  else
    let reasoning :=
      [lit "Minimal changes (" ++ natToStr totalChanges ++ lit " lines, " ++
         natToStr filesChanged ++ lit " files)",
       lit "No critical areas affected"]
    ⟨lit "Low", joinSemi reasoning, metrics⟩

/-- The lower-cased space-joined content `determineImpactAreas` scans:
`((diffOutput || '') + ' ' + (commits || '')).toLowerCase()`. -/
def impactContent (diffOutput commits : Option Str) : Str :=
  toLowerStr (orEmpty diffOutput ++ ' ' :: orEmpty commits)

/-- Source function `determineImpactAreas(diffOutput, commits)`: eight independent substring
group checks pushing fixed tag strings in declaration order, with a single
fallback string when no group matches.  The source returns the
`'\n'`-joined tag list (or the fallback) as one string. -/
def determineImpactAreas (diffOutput commits : Option Str) : Str :=
  let content := impactContent diffOutput commits
  let areas : List Str := []
  let areas := if strIncludes content (lit "test") || strIncludes content (lit "spec") then
    areas ++ [lit "- **Testing:** Test files have been modified or added"] else areas
  let areas := if strIncludes content (lit "api") || strIncludes content (lit "endpoint") ||
      strIncludes content (lit "route") then
    areas ++ [lit "- **API:** API endpoints or routes affected"] else areas
  let areas := if strIncludes content (lit "ui") || strIncludes content (lit "component") ||
      strIncludes content (lit "view") then
    areas ++ [lit "- **UI/UX:** User interface components modified"] else areas
  let areas := if strIncludes content (lit "database") || strIncludes content (lit "model") ||
      strIncludes content (lit "schema") then
    areas ++ [lit "- **Data Layer:** Database or data models changed"] else areas
  let areas := if strIncludes content (lit "config") || strIncludes content (lit "setting") ||
      strIncludes content (lit "env") then
    areas ++ [lit "- **Configuration:** Configuration or environment settings updated"] else areas
  let areas := if strIncludes content (lit "security") || strIncludes content (lit "auth") ||
      strIncludes content (lit "permission") then
    areas ++ [lit "- **Security:** Security-related changes detected"] else areas
  let areas := if strIncludes content (lit "performance") || strIncludes content (lit "optimize") ||
      strIncludes content (lit "cache") then
    areas ++ [lit "- **Performance:** Performance optimizations included"] else areas
  let areas := if strIncludes content (lit "doc") || strIncludes content (lit "readme") ||
      strIncludes content (lit "comment") then
    areas ++ [lit "- **Documentation:** Documentation updated"] else areas
  if 0 < areas.length then joinNL areas
  else lit "- General code improvements and maintenance"

/-- The list of risk strings assembled by `generateRiskConsiderations`
before joining: a severity-tier base block, then the two additive
content-triggered notes, in that order. -/
def riskList (severity : SeverityResult) (diffOutput : Option Str) : List Str :=
  let risks : List Str :=
    if severity.level = lit "Critical" then
      [lit "- ⚠️ **High Priority Review Required:** This PR contains critical changes that need thorough review",
       lit "- 🧪 **Extensive Testing Needed:** Ensure comprehensive testing before merging",
       lit "- 📋 **Consider Staged Rollout:** May want to deploy incrementally"]
    else if severity.level = lit "High" then
      [lit "- ⚠️ **Careful Review Recommended:** Significant changes require detailed review",
       lit "- 🧪 **Test Thoroughly:** Verify all affected functionality"]
    else if severity.level = lit "Medium" then
      [lit "- ✅ **Standard Review:** Regular review process should be sufficient",
       lit "- 🧪 **Test Affected Areas:** Focus testing on modified components"]
    else
      [lit "- ✅ **Low Risk:** Minor changes with minimal impact",
       lit "- 🧪 **Basic Testing:** Standard validation should be adequate"]
  let content := toLowerStr (orEmpty diffOutput)
  let risks := risks ++
    (if strIncludes content (lit "todo") || strIncludes content (lit "fixme") then
      [lit "- 📝 **TODOs Present:** Code contains TODO/FIXME comments to address"] else [])
  let risks := risks ++
    (if strIncludes content (lit "deprecated") then
      [lit "- ⏰ **Deprecation Notice:** Some functionality marked as deprecated"] else [])
  risks

/-- Source function `generateRiskConsiderations(severity, diffOutput)`: the `'\n'`-joined
risk strings. -/
def generateRiskConsiderations (severity : SeverityResult) (diffOutput : Option Str) : Str :=
  joinNL (riskList severity diffOutput)

/-- The `commitList` local of `buildPRDescription`:
`commits ? commits.split('\n').filter(c => c.trim()).map(c => '- ' + c).join('\n') : '- No commits'`
(`null` and the empty string are both falsy). -/
def commitListStr (commits : Option Str) : Str :=
  match commits with
  | none => lit "- No commits"
  | some s =>
    if s.isEmpty then lit "- No commits"
    else joinNL (((splitOnNL s).filter (fun c => !(jsTrim c).isEmpty)).map
      (fun c => lit "- " ++ c))

/-- The `files` local of `buildPRDescription`:
`fileStats ? fileStats.split('\n').filter(f => f.trim() && !f.includes('file changed')).slice(0, 10) : []`. -/
def fileLinesOf (fileStats : Option Str) : List Str :=
  match fileStats with
  | none => []
  | some f =>
    if f.isEmpty then []
    else (((splitOnNL f).filter
      (fun l => !(jsTrim l).isEmpty && !strIncludes l (lit "file changed"))).take 10)

/-- The `fileList` local of `buildPRDescription`:
`files.length > 0 ? files.map(f => '- ' + f.trim()).join('\n') : '- No files'`. -/
def fileListStr (fileStats : Option Str) : Str :=
  let files := fileLinesOf fileStats
  if 0 < files.length then joinNL (files.map (fun f => lit "- " ++ jsTrim f))
  else lit "- No files"

/-- Source function `buildPRDescription(commits, fileStats, diffOutput, severity)`: the
Markdown template literal of the source, written here as the `'\n'`-join of
its lines (a template literal is exactly the newline-join of the lines it is
written on; interpolated multi-line chunks occupy one line position each).
The conditional `GITHUB_STEP_SUMMARY` side channel is I/O and does not
affect the returned string. -/
def buildPRDescription (commits fileStats diffOutput : Option Str)
    (severity : SeverityResult) : Str :=
  joinNL
    [lit "## Summary",
     lit "This PR introduces changes across " ++ natToStr severity.metrics.filesChanged ++
       lit " file(s) with " ++ natToStr severity.metrics.insertions ++
       lit " insertions and " ++ natToStr severity.metrics.deletions ++ lit " deletions.",
     [],
     lit "## Severity: " ++ severity.level,
     lit "**Reasoning:** " ++ severity.reasoning,
     [],
     lit "**Metrics:**",
     lit "- Lines Changed: " ++ natToStr severity.metrics.linesChanged,
     lit "- Files Modified: " ++ natToStr severity.metrics.filesChanged,
     lit "- Insertions: +" ++ natToStr severity.metrics.insertions,
     lit "- Deletions: -" ++ natToStr severity.metrics.deletions,
     [],
     lit "## Changes Made",
     commitListStr commits,
     [],
     lit "## Files Modified",
     fileListStr fileStats,
     [],
     lit "## Impact Analysis",
     determineImpactAreas diffOutput commits,
     [],
     lit "## Risks & Considerations",
     generateRiskConsiderations severity diffOutput,
     [],
     lit "---",
     lit "*Generated with GitHub Copilot analysis*"]

/-- Source function `generateCopilotPRDescription(base, head)`, with the four subprocess
results (`git diff`, `git log`, `git diff --stat`, `gh copilot suggest`)
passed in explicitly: `null`/empty diff short-circuits to `null`; otherwise
both the Copilot branch and the fallback branch build the same description
from `analyzeSeverity` and `buildPRDescription` (they differ only in
logging), so `copilotResult` does not affect the returned value. -/
def generateCopilotPRDescription
    (diffOutput commits fileStats _copilotResult : Option Str) : Option Str :=
  if !truthy diffOutput then none
  else
    let severity := analyzeSeverity diffOutput fileStats commits
    some (buildPRDescription commits fileStats diffOutput severity)

/-- Source function `exec(command, silent)`: `outcome` is the underlying `execSync` result,
`none` standing for a raised subprocess error, which `exec` converts to
`null`; a successful result is trimmed iff `silent`. -/
def exec (outcome : Option Str) (silent : Bool) : Option Str :=
  match outcome with
  | none => none
  | some output => some (if silent then jsTrim output else output)

/-- Source function `getCurrentBranch()`, parametrised by the environment `env` mapping each
command string to its subprocess outcome (`none` = the command failed). -/
def getCurrentBranch (env : Str → Option Str) : Option Str :=
  exec (env (lit "git branch --show-current")) true

/-- First capture of `/refs\/remotes\/origin\/(.+)/`: leftmost occurrence of
the literal followed by at least one non-newline character; `(.+)` then
greedily takes the rest of that line.  If `.+` cannot match (line end right
after the literal), the scan continues at the next position, as JS does. -/
def originHeadCapture : Str → Option Str
  | [] => none
  | c :: t =>
    if strStarts (c :: t) (lit "refs/remotes/origin/") then
      match (c :: t).drop (lit "refs/remotes/origin/").length with
      | [] => originHeadCapture t
      | d :: u =>
        if d = '\n' then originHeadCapture t
        else some ((d :: u).takeWhile (fun x => x ≠ '\n'))
    else originHeadCapture t

/-- The `\s*(.+)` part of `/HEAD branch:\s*(.+)/` applied to the text after
the literal: `\s*` greedily eats the maximal whitespace run, backtracking
only as far as needed for `.+` to grab at least one non-newline character.
If a character follows the whitespace run, it is non-whitespace (hence
non-newline) and `(.+)` takes the rest of its line; otherwise `\s*`
backtracks to the last non-newline whitespace character, which `(.+)`
captures alone (only newlines follow it). -/
def wsThenRestCapture (r : Str) : Option Str :=
  let w := r.takeWhile jsIsSpace
  match r.drop w.length with
  | d :: u => some ((d :: u).takeWhile (fun x => x ≠ '\n'))
  | [] =>
    match ((w.reverse.dropWhile (fun x => x = '\n')).reverse).getLast? with
    | some d => some [d]
    | none => none

/-- First capture of `/HEAD branch:\s*(.+)/` (leftmost-match scan). -/
def headBranchCapture : Str → Option Str
  | [] => none
  | c :: t =>
    if strStarts (c :: t) (lit "HEAD branch:") then
      match wsThenRestCapture ((c :: t).drop (lit "HEAD branch:").length) with
      | some cap => some cap
      | none => headBranchCapture t
    else headBranchCapture t

/-- Source function `getDefaultBranch()`, parametrised by the environment as in
`getCurrentBranch`: remote `HEAD` symbolic ref, then `git remote show`
parsing, then the local/remote `main`/`master` probes, else `null`. -/
def getDefaultBranch (env : Str → Option Str) : Option Str :=
  let remoteHead := exec (env (lit "git symbolic-ref refs/remotes/origin/HEAD")) true
  let step1 : Option Str :=
    match remoteHead with
    | some s => if s.isEmpty then none else originHeadCapture s
    | none => none
  match step1 with
  | some b => some b
  | none =>
    let remoteInfo := exec (env (lit "git remote show origin")) true
    let step2 : Option Str :=
      match remoteInfo with
      | some s => if s.isEmpty then none else (headBranchCapture s).map jsTrim
      | none => none
    match step2 with
    | some b => some b
    | none =>
      if truthy (exec (env (lit "git show-ref --verify refs/heads/main")) true) then
        some (lit "main")
      else if truthy (exec (env (lit "git show-ref --verify refs/heads/master")) true) then
        some (lit "master")
      else if truthy (exec (env (lit "git show-ref --verify refs/remotes/origin/main")) true) then
        some (lit "main")
      else if truthy (exec (env (lit "git show-ref --verify refs/remotes/origin/master")) true) then
        some (lit "master")
      else none

/-! ### Derived definitions used by the claim statements and proofs -/

/-- Predicate `noNL s`: `s` contains no newline character. -/
def noNL (s : Str) : Bool := s.all (fun c => c != '\n')

/-- The Critical-tier condition of `analyzeSeverity`. -/
def critCond (diffOutput commits : Option Str) : Bool :=
  hasCriticalKeywordF commits || hasAuthChangeF diffOutput || hasDatabaseChangeF diffOutput

/-- The High-tier condition of `analyzeSeverity` (metrics drawn from the
stat text). -/
def highCond (diffOutput fileStats : Option Str) : Bool :=
  decide (500 < (extractMetrics (orEmpty fileStats)).linesChanged) ||
  decide (10 < (extractMetrics (orEmpty fileStats)).filesChanged) ||
  hasAPIChangeF diffOutput

/-- The Medium-tier condition of `analyzeSeverity`. -/
def medCond (diffOutput fileStats : Option Str) : Bool :=
  decide (100 < (extractMetrics (orEmpty fileStats)).linesChanged) ||
  decide (3 < (extractMetrics (orEmpty fileStats)).filesChanged) ||
  hasConfigChangeF diffOutput

/-- The eight (condition, tag) groups of `determineImpactAreas`, in
declaration order. -/
def impactPairs (diffOutput commits : Option Str) : List (Bool × Str) :=
  [(strIncludes (impactContent diffOutput commits) (lit "test") ||
      strIncludes (impactContent diffOutput commits) (lit "spec"),
    lit "- **Testing:** Test files have been modified or added"),
   (strIncludes (impactContent diffOutput commits) (lit "api") ||
      strIncludes (impactContent diffOutput commits) (lit "endpoint") ||
      strIncludes (impactContent diffOutput commits) (lit "route"),
    lit "- **API:** API endpoints or routes affected"),
   (strIncludes (impactContent diffOutput commits) (lit "ui") ||
      strIncludes (impactContent diffOutput commits) (lit "component") ||
      strIncludes (impactContent diffOutput commits) (lit "view"),
    lit "- **UI/UX:** User interface components modified"),
   (strIncludes (impactContent diffOutput commits) (lit "database") ||
      strIncludes (impactContent diffOutput commits) (lit "model") ||
      strIncludes (impactContent diffOutput commits) (lit "schema"),
    lit "- **Data Layer:** Database or data models changed"),
   (strIncludes (impactContent diffOutput commits) (lit "config") ||
      strIncludes (impactContent diffOutput commits) (lit "setting") ||
      strIncludes (impactContent diffOutput commits) (lit "env"),
    lit "- **Configuration:** Configuration or environment settings updated"),
   (strIncludes (impactContent diffOutput commits) (lit "security") ||
      strIncludes (impactContent diffOutput commits) (lit "auth") ||
      strIncludes (impactContent diffOutput commits) (lit "permission"),
    lit "- **Security:** Security-related changes detected"),
   (strIncludes (impactContent diffOutput commits) (lit "performance") ||
      strIncludes (impactContent diffOutput commits) (lit "optimize") ||
      strIncludes (impactContent diffOutput commits) (lit "cache"),
    lit "- **Performance:** Performance optimizations included"),
   (strIncludes (impactContent diffOutput commits) (lit "doc") ||
      strIncludes (impactContent diffOutput commits) (lit "readme") ||
      strIncludes (impactContent diffOutput commits) (lit "comment"),
    lit "- **Documentation:** Documentation updated")]

/-- A header line of the rendered Markdown: a line starting with `"## "`. -/
def isHeaderLine (l : Str) : Bool := strStarts l (lit "## ")

/-- Variant of `analyzeSeverity` with every potentially-failing primitive made
explicit: `parseIntOpt` returns `none` where JS `parseInt` would produce
`NaN`.  Showing this checked variant always returns `some` shows the error
branch of the caller is unreachable from the classifier. -/
def analyzeSeverityChecked (diffOutput fileStats commits : Option Str) :
    Option SeverityResult :=
  match (match insertionsCapture fileStats with
    | some ds => parseIntOpt ds
    | none => some 0) with
  | none => none
  | some insertions =>
    match (match deletionsCapture fileStats with
      | some ds => parseIntOpt ds
      | none => some 0) with
    | none => none
    | some deletions =>
      match (match filesCapture fileStats with
        | some ds => parseIntOpt ds
        | none => some 0) with
      | none => none
      | some filesChanged =>
        let totalChanges := insertions + deletions
        let metrics : Metrics := ⟨totalChanges, filesChanged, insertions, deletions⟩
        if hasCriticalKeywordF commits || hasAuthChangeF diffOutput ||
            hasDatabaseChangeF diffOutput then
          let reasoning :=
            (if hasCriticalKeywordF commits then
              [lit "Critical keywords in commits"] else []) ++
            (if hasAuthChangeF diffOutput then
              [lit "Authentication/authorization changes"] else []) ++
            (if hasDatabaseChangeF diffOutput then [lit "Database schema changes"] else [])
          some ⟨lit "Critical", joinSemi reasoning, metrics⟩
        else if decide (500 < totalChanges) || decide (10 < filesChanged) ||
            hasAPIChangeF diffOutput then
          let reasoning :=
            (if decide (500 < totalChanges) then
              [lit "Large number of changes (" ++ natToStr totalChanges ++ lit " lines)"]
              else []) ++
            (if decide (10 < filesChanged) then
              [lit "Multiple files affected (" ++ natToStr filesChanged ++ lit " files)"]
              else []) ++
            (if hasAPIChangeF diffOutput then [lit "Public API modifications"] else [])
          some ⟨lit "High", joinSemi reasoning, metrics⟩
        else if decide (100 < totalChanges) || decide (3 < filesChanged) ||
            hasConfigChangeF diffOutput then
          let reasoning :=
            (if decide (100 < totalChanges) then
              [lit "Moderate changes (" ++ natToStr totalChanges ++ lit " lines)"] else []) ++
            (if decide (3 < filesChanged) then
              [lit "Several files modified (" ++ natToStr filesChanged ++ lit " files)"]
              else []) ++
            (if hasConfigChangeF diffOutput then [lit "Configuration changes"] else [])
          some ⟨lit "Medium", joinSemi reasoning, metrics⟩
        else
          let reasoning :=
            [lit "Minimal changes (" ++ natToStr totalChanges ++ lit " lines, " ++
               natToStr filesChanged ++ lit " files)",
             lit "No critical areas affected"]
          some ⟨lit "Low", joinSemi reasoning, metrics⟩

/-! ### Infrastructure lemmas about lines, joining and splitting -/

theorem noNL_append (a b : Str) : noNL (a ++ b) = (noNL a && noNL b) := by
  simp [noNL, List.all_append]

theorem noNL_app {a b : Str} (ha : noNL a = true) (hb : noNL b = true) :
    noNL (a ++ b) = true := by
  rw [noNL_append, ha, hb]; rfl

theorem splitOnNL_ne_nil (s : Str) : splitOnNL s ≠ [] := by
  induction s with
  | nil => simp [splitOnNL]
  | cons c t ih =>
    simp only [splitOnNL]
    split
    · simp
    · cases h : splitOnNL t with
      | nil => simp
      | cons a b => simp

theorem splitOnNL_append_nl (a b : Str) :
    splitOnNL (a ++ '\n' :: b) = splitOnNL a ++ splitOnNL b := by
  induction a with
  | nil => simp [splitOnNL]
  | cons c t ih =>
    by_cases hc : c = '\n'
    · subst hc
      simp [splitOnNL, ih]
    · simp only [List.cons_append, splitOnNL, if_neg hc, List.append_eq]
      rw [ih]
      cases hst : splitOnNL t with
      | nil => exact absurd hst (splitOnNL_ne_nil t)
      | cons x r => simp

theorem splitOnNL_of_noNL : ∀ {s : Str}, noNL s = true → splitOnNL s = [s] := by
  intro s
  induction s with
  | nil => intro _; rfl
  | cons c t ih =>
    intro h
    have h' : (c != '\n') = true ∧ noNL t = true := by simpa [noNL] using h
    have hc : c ≠ '\n' := by simpa using h'.1
    simp only [splitOnNL, if_neg hc, ih h'.2]

theorem noNL_of_mem_splitOnNL : ∀ {s l : Str}, l ∈ splitOnNL s → noNL l = true := by
  intro s
  induction s with
  | nil =>
    intro l h
    simp only [splitOnNL, List.mem_singleton] at h
    subst h; rfl
  | cons c t ih =>
    intro l h
    by_cases hc : c = '\n'
    · subst hc
      replace h : l ∈ [] :: splitOnNL t := h
      rcases List.mem_cons.1 h with h | h
      · subst h; rfl
      · exact ih h
    · simp only [splitOnNL, if_neg hc] at h
      cases hs : splitOnNL t with
      | nil => exact absurd hs (splitOnNL_ne_nil t)
      | cons x r =>
        rw [hs] at h
        simp only [List.mem_cons] at h
        rcases h with h | h
        · subst h
          have hx : noNL x = true := ih (by rw [hs]; exact List.mem_cons_self x r)
          simp only [noNL, List.all_cons, Bool.and_eq_true, bne_iff_ne]
          exact ⟨hc, by simpa [noNL, List.all_eq_true] using hx⟩
        · exact ih (by rw [hs]; exact List.mem_cons_of_mem x h)

theorem joinNL_single (x : Str) : joinNL [x] = x := rfl

theorem joinNL_cons_cons (x y : Str) (ys : List Str) :
    joinNL (x :: y :: ys) = x ++ '\n' :: joinNL (y :: ys) := rfl

theorem splitOnNL_joinNL_cons (x y : Str) (ys : List Str) :
    splitOnNL (joinNL (x :: y :: ys)) = splitOnNL x ++ splitOnNL (joinNL (y :: ys)) := by
  rw [joinNL_cons_cons, splitOnNL_append_nl]

theorem splitOnNL_joinNL {ls : List Str} (hne : ls ≠ [])
    (h : ∀ l ∈ ls, noNL l = true) : splitOnNL (joinNL ls) = ls := by
  induction ls with
  | nil => exact absurd rfl hne
  | cons x xs ih =>
    cases xs with
    | nil => rw [joinNL_single, splitOnNL_of_noNL (h x (List.mem_cons_self x []))]
    | cons y ys =>
      rw [splitOnNL_joinNL_cons, splitOnNL_of_noNL (h x (List.mem_cons_self x _)),
        ih (by simp) (fun l hl => h l (List.mem_cons_of_mem x hl))]
      rfl

theorem noNL_joinSemi {ls : List Str} (h : ∀ l ∈ ls, noNL l = true) :
    noNL (joinSemi ls) = true := by
  induction ls with
  | nil => rfl
  | cons x xs ih =>
    cases xs with
    | nil => exact h x (List.mem_cons_self x [])
    | cons y ys =>
      show noNL (x ++ ';' :: ' ' :: joinSemi (y :: ys)) = true
      refine noNL_app (h x (List.mem_cons_self x _)) ?_
      have := ih (fun l hl => h l (List.mem_cons_of_mem x hl))
      simpa [noNL] using this

theorem digitChar_ne_nl : ∀ m < 10, Nat.digitChar m != '\n' := by decide

theorem natToStr_noNL : ∀ n : Nat, noNL (natToStr n) = true := by
  intro n
  induction n using Nat.strong_induction_on with
  | _ n ih =>
    rw [natToStr]
    split
    · rename_i h
      simpa [noNL] using digitChar_ne_nl n h
    · rename_i h
      refine noNL_app (ih (n / 10) (Nat.div_lt_self (by omega) (by omega))) ?_
      simpa [noNL] using digitChar_ne_nl (n % 10) (Nat.mod_lt n (by omega))

theorem eq_of_mem_ite_singleton {c : Prop} [Decidable c] {x l : Str}
    (h : l ∈ (if c then [x] else [])) : l = x := by
  split at h
  · simpa using h
  · simp at h

theorem strStarts_toLower : ∀ {s p : Str}, strStarts s p = true →
    strStarts (toLowerStr s) (toLowerStr p) = true := by
  intro s
  induction s with
  | nil =>
    intro p h
    cases p with
    | nil => rfl
    | cons d u => exact absurd h (by simp [strStarts])
  | cons c t ih =>
    intro p h
    cases p with
    | nil => rfl
    | cons d u =>
      simp only [strStarts, Bool.and_eq_true, beq_iff_eq] at h
      obtain ⟨rfl, h2⟩ := h
      simp only [toLowerStr, List.map_cons, strStarts, Bool.and_eq_true, beq_iff_eq]
      exact ⟨by simp, by simpa [toLowerStr] using ih h2⟩

theorem strIncludes_toLower : ∀ {s p : Str}, strIncludes s p = true →
    strIncludes (toLowerStr s) (toLowerStr p) = true := by
  intro s
  induction s with
  | nil =>
    intro p h
    cases p with
    | nil => rfl
    | cons d u => exact absurd h (by simp [strIncludes])
  | cons c t ih =>
    intro p h
    simp only [strIncludes, Bool.or_eq_true] at h
    rcases h with h | h
    · have h' := strStarts_toLower h
      simp only [toLowerStr, List.map_cons] at h' ⊢
      simp only [strIncludes, Bool.or_eq_true]
      exact Or.inl h'
    · have h' := ih h
      simp only [toLowerStr, List.map_cons, strIncludes, Bool.or_eq_true]
      exact Or.inr (by simpa [toLowerStr] using h')

theorem noNL_jsTrim {s : Str} (h : noNL s = true) : noNL (jsTrim s) = true := by
  simp only [noNL, List.all_eq_true] at h ⊢
  intro c hc
  apply h
  have h1 : c ∈ (s.dropWhile jsIsSpace).reverse.dropWhile jsIsSpace := by
    simpa [jsTrim] using hc
  have h2 : c ∈ (s.dropWhile jsIsSpace).reverse :=
    List.Sublist.mem h1 (List.dropWhile_sublist _)
  have h3 : c ∈ s.dropWhile jsIsSpace := by simpa using h2
  exact List.Sublist.mem h3 (List.dropWhile_sublist _)

/-! ### Equational characterisation of the severity classifier -/

theorem analyzeSeverity_eq (d fs c : Option Str) :
    analyzeSeverity d fs c =
      (if critCond d c then
        ⟨lit "Critical",
         joinSemi
           ((if hasCriticalKeywordF c then [lit "Critical keywords in commits"] else []) ++
            (if hasAuthChangeF d then [lit "Authentication/authorization changes"] else []) ++
            (if hasDatabaseChangeF d then [lit "Database schema changes"] else [])),
         extractMetrics (orEmpty fs)⟩
      else if highCond d fs then
        ⟨lit "High",
         joinSemi
           ((if decide (500 < (extractMetrics (orEmpty fs)).linesChanged) then
              [lit "Large number of changes (" ++
                natToStr (extractMetrics (orEmpty fs)).linesChanged ++ lit " lines)"] else []) ++
            (if decide (10 < (extractMetrics (orEmpty fs)).filesChanged) then
              [lit "Multiple files affected (" ++
                natToStr (extractMetrics (orEmpty fs)).filesChanged ++ lit " files)"] else []) ++
            (if hasAPIChangeF d then [lit "Public API modifications"] else [])),
         extractMetrics (orEmpty fs)⟩
      else if medCond d fs then
        ⟨lit "Medium",
         joinSemi
           ((if decide (100 < (extractMetrics (orEmpty fs)).linesChanged) then
              [lit "Moderate changes (" ++
                natToStr (extractMetrics (orEmpty fs)).linesChanged ++ lit " lines)"] else []) ++
            (if decide (3 < (extractMetrics (orEmpty fs)).filesChanged) then
              [lit "Several files modified (" ++
                natToStr (extractMetrics (orEmpty fs)).filesChanged ++ lit " files)"] else []) ++
            (if hasConfigChangeF d then [lit "Configuration changes"] else [])),
         extractMetrics (orEmpty fs)⟩
      else
        ⟨lit "Low",
         joinSemi
           [lit "Minimal changes (" ++ natToStr (extractMetrics (orEmpty fs)).linesChanged ++
              lit " lines, " ++ natToStr (extractMetrics (orEmpty fs)).filesChanged ++
              lit " files)",
            lit "No critical areas affected"],
         extractMetrics (orEmpty fs)⟩) := by
  cases fs <;> rfl

theorem analyzeSeverity_metrics (d fs c : Option Str) :
    (analyzeSeverity d fs c).metrics = extractMetrics (orEmpty fs) := by
  rw [analyzeSeverity_eq]
  split
  · rfl
  · split
    · rfl
    · split <;> rfl

theorem analyzeSeverity_level_cases (d fs c : Option Str) :
    (analyzeSeverity d fs c).level = lit "Low" ∨ (analyzeSeverity d fs c).level = lit "Medium" ∨
    (analyzeSeverity d fs c).level = lit "High" ∨
    (analyzeSeverity d fs c).level = lit "Critical" := by
  rw [analyzeSeverity_eq]
  split
  · exact Or.inr (Or.inr (Or.inr rfl))
  · split
    · exact Or.inr (Or.inr (Or.inl rfl))
    · split
      · exact Or.inr (Or.inl rfl)
      · exact Or.inl rfl

theorem analyzeSeverity_level_noNL (d fs c : Option Str) :
    noNL (analyzeSeverity d fs c).level = true := by
  rcases analyzeSeverity_level_cases d fs c with h | h | h | h <;> rw [h] <;> decide

theorem analyzeSeverity_reasoning_noNL (d fs c : Option Str) :
    noNL (analyzeSeverity d fs c).reasoning = true := by
  rw [analyzeSeverity_eq]
  split
  · apply noNL_joinSemi
    intro l hl
    rcases List.mem_append.1 hl with hl | hl
    · rcases List.mem_append.1 hl with hl | hl <;> rw [eq_of_mem_ite_singleton hl] <;> decide
    · rw [eq_of_mem_ite_singleton hl]; decide
  · split
    · apply noNL_joinSemi
      intro l hl
      rcases List.mem_append.1 hl with hl | hl
      · rcases List.mem_append.1 hl with hl | hl <;> rw [eq_of_mem_ite_singleton hl]
        · exact noNL_app (noNL_app (by decide) (natToStr_noNL _)) (by decide)
        · exact noNL_app (noNL_app (by decide) (natToStr_noNL _)) (by decide)
      · rw [eq_of_mem_ite_singleton hl]; decide
    · split
      · apply noNL_joinSemi
        intro l hl
        rcases List.mem_append.1 hl with hl | hl
        · rcases List.mem_append.1 hl with hl | hl <;> rw [eq_of_mem_ite_singleton hl]
          · exact noNL_app (noNL_app (by decide) (natToStr_noNL _)) (by decide)
          · exact noNL_app (noNL_app (by decide) (natToStr_noNL _)) (by decide)
        · rw [eq_of_mem_ite_singleton hl]; decide
      · apply noNL_joinSemi
        intro l hl
        rcases List.mem_cons.1 hl with hl | hl
        · rw [hl]
          exact noNL_app (noNL_app (noNL_app (noNL_app (by decide) (natToStr_noNL _))
            (by decide)) (natToStr_noNL _)) (by decide)
        · rw [List.mem_singleton.1 hl]; decide

theorem analyzeSeverity_critical_iff (d fs c : Option Str) :
    ((analyzeSeverity d fs c).level = lit "Critical") ↔ critCond d c = true := by
  rw [analyzeSeverity_eq]
  split
  · rename_i h; exact iff_of_true rfl h
  · rename_i h
    have hf : ¬critCond d c = true := h
    split
    · exact iff_of_false (fun hx => absurd hx (by decide : ¬(lit "High" = lit "Critical"))) hf
    · split
      · exact iff_of_false (fun hx => absurd hx (by decide : ¬(lit "Medium" = lit "Critical"))) hf
      · exact iff_of_false (fun hx => absurd hx (by decide : ¬(lit "Low" = lit "Critical"))) hf

theorem filter_pairs_triple (b1 b2 b3 : Bool) (m1 m2 m3 : Str) :
    (([(b1, m1), (b2, m2), (b3, m3)].filter (fun p => p.1)).map Prod.snd) =
      (if b1 then [m1] else []) ++ (if b2 then [m2] else []) ++ (if b3 then [m3] else []) := by
  cases b1 <;> cases b2 <;> cases b3 <;> rfl

theorem ifappend_foldl_filter (ps : List (Bool × Str)) (acc : List Str) :
    ps.foldl (fun a p => if p.1 then a ++ [p.2] else a) acc =
      acc ++ (ps.filter (fun p => p.1)).map Prod.snd := by
  induction ps generalizing acc with
  | nil => simp
  | cons p ps ih =>
    cases hp : p.1 <;>
      simp [List.foldl_cons, hp, ih, List.filter_cons]

/-! ### Claim theorems -/

/-- Claim C1: for every input triple, the severity computed by
`analyzeSeverity` is exactly one of Low, Medium, High, Critical; the tier
checks form an ordered first-match decision list with priority
Critical > High > Medium > Low; and any input whose diff text contains
"auth" and whose metrics give more than 500 changed lines classifies
Critical, not High. -/
theorem c1_severity_first_match_priority (d fs c : Option Str) :
    ((analyzeSeverity d fs c).level = lit "Low" ∨ (analyzeSeverity d fs c).level = lit "Medium" ∨
      (analyzeSeverity d fs c).level = lit "High" ∨
      (analyzeSeverity d fs c).level = lit "Critical") ∧
    (critCond d c = true → (analyzeSeverity d fs c).level = lit "Critical") ∧
    (critCond d c = false → highCond d fs = true →
      (analyzeSeverity d fs c).level = lit "High") ∧
    (critCond d c = false → highCond d fs = false → medCond d fs = true →
      (analyzeSeverity d fs c).level = lit "Medium") ∧
    (critCond d c = false → highCond d fs = false → medCond d fs = false →
      (analyzeSeverity d fs c).level = lit "Low") ∧
    (strIncludes (orEmpty d) (lit "auth") = true →
      500 < (extractMetrics (orEmpty fs)).linesChanged →
      (analyzeSeverity d fs c).level = lit "Critical" ∧
        (analyzeSeverity d fs c).level ≠ lit "High") := by
  refine ⟨analyzeSeverity_level_cases d fs c, ?_, ?_, ?_, ?_, ?_⟩
  · intro h1
    rw [analyzeSeverity_eq]
    simp [h1]
  · intro h1 h2
    rw [analyzeSeverity_eq]
    simp [h1, h2]
  · intro h1 h2 h3
    rw [analyzeSeverity_eq]
    simp [h1, h2, h3]
  · intro h1 h2 h3
    rw [analyzeSeverity_eq]
    simp [h1, h2, h3]
  · intro hauth hlines
    have h2 := strIncludes_toLower hauth
    rw [show toLowerStr (lit "auth") = lit "auth" from by decide] at h2
    have hauthF : hasAuthChangeF d = true := by
      simp only [hasAuthChangeF, Bool.or_eq_true]
      exact Or.inl (Or.inl h2)
    have hcrit : critCond d c = true := by
      simp [critCond, hauthF]
    constructor
    · rw [analyzeSeverity_eq]; simp [hcrit]
    · rw [analyzeSeverity_eq]; simp [hcrit]
      decide

/-- Witness for C1 at a concrete input: a diff containing "auth" together
with 600 changed lines classifies Critical (not High). -/
theorem c1_severity_first_match_priority_witness :
    (analyzeSeverity (some (lit "+ function auth() {}"))
        (some (lit " 3 files changed, 400 insertions(+), 200 deletions(-)")) none).level =
        lit "Critical" ∧
      (analyzeSeverity (some (lit "+ function auth() {}"))
        (some (lit " 3 files changed, 400 insertions(+), 200 deletions(-)")) none).level ≠
        lit "High" :=
  (c1_severity_first_match_priority (some (lit "+ function auth() {}"))
    (some (lit " 3 files changed, 400 insertions(+), 200 deletions(-)")) none).2.2.2.2.2
    (by decide) (by decide)

/-- Claim C2: `analyzeSeverity` returns Critical iff a critical commit
keyword, an auth-related diff substring, or a database-related diff
substring is present; in the Critical case the reasoning is the
`'; '`-join of every matched sub-condition's message, in the fixed order
critical-keyword, auth-change, database-change. -/
theorem c2_critical_iff_and_reasoning (d fs c : Option Str) :
    ((analyzeSeverity d fs c).level = lit "Critical" ↔
      (hasCriticalKeywordF c || hasAuthChangeF d || hasDatabaseChangeF d) = true) ∧
    ((hasCriticalKeywordF c || hasAuthChangeF d || hasDatabaseChangeF d) = true →
      (analyzeSeverity d fs c).reasoning =
        joinSemi ((([(hasCriticalKeywordF c, lit "Critical keywords in commits"),
                     (hasAuthChangeF d, lit "Authentication/authorization changes"),
                     (hasDatabaseChangeF d, lit "Database schema changes")].filter
                      (fun p => p.1)).map Prod.snd))) := by
  constructor
  · exact analyzeSeverity_critical_iff d fs c
  · intro h
    rw [analyzeSeverity_eq]
    have hc : critCond d c = true := h
    simp only [hc, if_true]
    rw [filter_pairs_triple]

/-- Witness for C2: commit text "security: fix authentication vulnerability"
yields Critical, with reasoning containing "Critical keywords in commits". -/
theorem c2_critical_iff_and_reasoning_witness :
    (analyzeSeverity none none
        (some (lit "security: fix authentication vulnerability"))).level = lit "Critical" ∧
      strIncludes
        (analyzeSeverity none none
          (some (lit "security: fix authentication vulnerability"))).reasoning
        (lit "Critical keywords in commits") = true := by
  have h := c2_critical_iff_and_reasoning none none
    (some (lit "security: fix authentication vulnerability"))
  refine ⟨h.1.mpr (by decide), ?_⟩
  rw [h.2 (by decide)]
  decide

/-- Claim C3: the metrics extraction performs three independent
first-occurrence searches, each absent pattern yields 0, the empty string
yields all-zero metrics, `linesChanged` always equals
`insertions + deletions`, the documented stat-text example evaluates as
stated, and `analyzeSeverity` carries exactly these metrics. -/
theorem c3_extract_metrics :
    extractMetrics [] = ⟨0, 0, 0, 0⟩ ∧
    extractMetrics (lit " file.js | 10 ++\n1 file changed, 10 insertions(+)") =
      ⟨10, 1, 10, 0⟩ ∧
    (∀ s : Str, (extractMetrics s).linesChanged =
      (extractMetrics s).insertions + (extractMetrics s).deletions) ∧
    (∀ s : Str, matchNumThen [lit " insertion"] s = none →
      (extractMetrics s).insertions = 0) ∧
    (∀ s : Str, matchNumThen [lit " deletion"] s = none →
      (extractMetrics s).deletions = 0) ∧
    (∀ s : Str, matchNumThen [lit " files changed", lit " file changed"] s = none →
      (extractMetrics s).filesChanged = 0) ∧
    (∀ d fs c : Option Str, (analyzeSeverity d fs c).metrics = extractMetrics (orEmpty fs)) := by
  refine ⟨by decide, by decide, fun s => rfl, ?_, ?_, ?_,
    fun d fs c => analyzeSeverity_metrics d fs c⟩ <;>
    · intro s h
      simp [extractMetrics, h]

/-- Witness for C3: a stat text with no recognisable patterns yields 0 for
the insertions field. -/
theorem c3_extract_metrics_witness :
    (extractMetrics (lit "no numeric patterns here")).insertions = 0 :=
  c3_extract_metrics.2.2.2.1 (lit "no numeric patterns here") (by decide)

/-- Claim C5: `determineImpactAreas` tests the lower-cased concatenation of
diff text and commit messages against the 8 fixed substring groups
independently and returns exactly the applicable tags, in the fixed
group-declaration order (a filter of the declared group list); when zero
groups match, it returns exactly the single fallback string. -/
theorem c5_impact_areas (d c : Option Str) :
    (determineImpactAreas d c =
      (if 0 < (((impactPairs d c).filter (fun p => p.1)).map Prod.snd).length then
        joinNL (((impactPairs d c).filter (fun p => p.1)).map Prod.snd)
      else lit "- General code improvements and maintenance")) ∧
    ((impactPairs d c).filter (fun p => p.1) = [] →
      determineImpactAreas d c = lit "- General code improvements and maintenance") := by
  have key : determineImpactAreas d c =
      (if 0 < (((impactPairs d c).filter (fun p => p.1)).map Prod.snd).length then
        joinNL (((impactPairs d c).filter (fun p => p.1)).map Prod.snd)
      else lit "- General code improvements and maintenance") := by
    have h := ifappend_foldl_filter (impactPairs d c) []
    rw [List.nil_append] at h
    show (if 0 < ((impactPairs d c).foldl
          (fun a p => if p.1 then a ++ [p.2] else a) []).length then
        joinNL ((impactPairs d c).foldl (fun a p => if p.1 then a ++ [p.2] else a) [])
      else lit "- General code improvements and maintenance") = _
    rw [h]
  refine ⟨key, fun hnil => ?_⟩
  rw [key, hnil]
  rfl

/-- Witness for C5: a change set matching none of the 8 keyword groups
returns exactly the fallback string. -/
theorem c5_impact_areas_witness :
    determineImpactAreas (some (lit "+ x = 1")) none =
      lit "- General code improvements and maintenance" :=
  (c5_impact_areas (some (lit "+ x = 1")) none).2 (by decide)

/-- Every element of `riskList` is newline-free. -/
theorem riskList_noNL (s : SeverityResult) (d : Option Str) :
    ∀ l ∈ riskList s d, noNL l = true := by
  intro l hl
  simp only [riskList] at hl
  rcases List.mem_append.1 hl with hl | hl
  · rcases List.mem_append.1 hl with hl | hl
    · split at hl
      · simp only [List.mem_cons, List.not_mem_nil, or_false] at hl
        rcases hl with h | h | h <;> (rw [h]; decide)
      · split at hl
        · simp only [List.mem_cons, List.not_mem_nil, or_false] at hl
          rcases hl with h | h <;> (rw [h]; decide)
        · split at hl
          · simp only [List.mem_cons, List.not_mem_nil, or_false] at hl
            rcases hl with h | h <;> (rw [h]; decide)
          · simp only [List.mem_cons, List.not_mem_nil, or_false] at hl
            rcases hl with h | h <;> (rw [h]; decide)
    · rw [eq_of_mem_ite_singleton hl]; decide
  · rw [eq_of_mem_ite_singleton hl]; decide

/-- The list `riskList` is never empty (every tier base block has at least two
notes). -/
theorem riskList_ne_nil (s : SeverityResult) (d : Option Str) :
    riskList s d ≠ [] := by
  simp only [riskList]
  split
  · simp
  · split
    · simp
    · split <;> simp

/-- Claim C4: `generateRiskConsiderations` emits exactly 3 base notes for
Critical and exactly 2 for every other severity level (in particular High,
Medium, Low); the TODO note and the deprecation note are additive,
independent of the tier, and always appended last, in that fixed order. -/
theorem c4_risk_notes (s : SeverityResult) (d : Option Str) :
    (splitOnNL (generateRiskConsiderations s d) =
      (if s.level = lit "Critical" then
        [lit "- ⚠️ **High Priority Review Required:** This PR contains critical changes that need thorough review",
         lit "- 🧪 **Extensive Testing Needed:** Ensure comprehensive testing before merging",
         lit "- 📋 **Consider Staged Rollout:** May want to deploy incrementally"]
      else if s.level = lit "High" then
        [lit "- ⚠️ **Careful Review Recommended:** Significant changes require detailed review",
         lit "- 🧪 **Test Thoroughly:** Verify all affected functionality"]
      else if s.level = lit "Medium" then
        [lit "- ✅ **Standard Review:** Regular review process should be sufficient",
         lit "- 🧪 **Test Affected Areas:** Focus testing on modified components"]
      else
        [lit "- ✅ **Low Risk:** Minor changes with minimal impact",
         lit "- 🧪 **Basic Testing:** Standard validation should be adequate"]) ++
      (if strIncludes (toLowerStr (orEmpty d)) (lit "todo") ||
          strIncludes (toLowerStr (orEmpty d)) (lit "fixme") then
        [lit "- 📝 **TODOs Present:** Code contains TODO/FIXME comments to address"] else []) ++
      (if strIncludes (toLowerStr (orEmpty d)) (lit "deprecated") then
        [lit "- ⏰ **Deprecation Notice:** Some functionality marked as deprecated"] else [])) ∧
    (splitOnNL (generateRiskConsiderations s d)).length =
      (if s.level = lit "Critical" then 3 else 2) +
      (if strIncludes (toLowerStr (orEmpty d)) (lit "todo") ||
          strIncludes (toLowerStr (orEmpty d)) (lit "fixme") then 1 else 0) +
      (if strIncludes (toLowerStr (orEmpty d)) (lit "deprecated") then 1 else 0) := by
  have h1 : splitOnNL (generateRiskConsiderations s d) = riskList s d :=
    splitOnNL_joinNL (riskList_ne_nil s d) (riskList_noNL s d)
  refine ⟨by rw [h1]; rfl, ?_⟩
  rw [h1]
  simp only [riskList, List.length_append]
  by_cases hc : s.level = lit "Critical" <;>
    by_cases hh : s.level = lit "High" <;>
      by_cases hm : s.level = lit "Medium" <;>
        simp [hc, hh, hm, apply_ite List.length]

/-! ### Line structure of the rendered description -/

theorem determineImpactAreas_eq_filter (d c : Option Str) :
    determineImpactAreas d c =
      (if 0 < (((impactPairs d c).filter (fun p => p.1)).map Prod.snd).length then
        joinNL (((impactPairs d c).filter (fun p => p.1)).map Prod.snd)
      else lit "- General code improvements and maintenance") := by
  have h := ifappend_foldl_filter (impactPairs d c) []
  rw [List.nil_append] at h
  show (if 0 < ((impactPairs d c).foldl
        (fun a p => if p.1 then a ++ [p.2] else a) []).length then
      joinNL ((impactPairs d c).foldl (fun a p => if p.1 then a ++ [p.2] else a) [])
    else lit "- General code improvements and maintenance") = _
  rw [h]

theorem impactPairs_tag_props {d c : Option Str} :
    ∀ p ∈ impactPairs d c, noNL p.2 = true ∧ isHeaderLine p.2 = false := by
  intro p hp
  simp only [impactPairs, List.mem_cons, List.not_mem_nil, or_false] at hp
  rcases hp with h | h | h | h | h | h | h | h <;> (rw [h]; dsimp only; exact ⟨by decide, by decide⟩)

theorem impactLines_not_header (d c : Option Str) :
    ∀ l ∈ splitOnNL (determineImpactAreas d c), isHeaderLine l = false := by
  intro l hl
  rw [determineImpactAreas_eq_filter] at hl
  split at hl
  · rename_i hpos
    have hne : ((impactPairs d c).filter (fun p => p.1)).map Prod.snd ≠ [] := by
      intro h0; rw [h0] at hpos; simp at hpos
    rw [splitOnNL_joinNL hne ?hm] at hl
    case hm =>
      intro x hx
      obtain ⟨p, hp, rfl⟩ := List.mem_map.1 hx
      exact (impactPairs_tag_props p (List.mem_filter.1 hp).1).1
    obtain ⟨p, hp, rfl⟩ := List.mem_map.1 hl
    exact (impactPairs_tag_props p (List.mem_filter.1 hp).1).2
  · rw [splitOnNL_of_noNL (by decide)] at hl
    rw [List.mem_singleton.1 hl]
    decide

theorem riskList_not_header (s : SeverityResult) (d : Option Str) :
    ∀ l ∈ riskList s d, isHeaderLine l = false := by
  intro l hl
  simp only [riskList] at hl
  rcases List.mem_append.1 hl with hl | hl
  · rcases List.mem_append.1 hl with hl | hl
    · split at hl
      · simp only [List.mem_cons, List.not_mem_nil, or_false] at hl
        rcases hl with h | h | h <;> (rw [h]; decide)
      · split at hl
        · simp only [List.mem_cons, List.not_mem_nil, or_false] at hl
          rcases hl with h | h <;> (rw [h]; decide)
        · split at hl
          · simp only [List.mem_cons, List.not_mem_nil, or_false] at hl
            rcases hl with h | h <;> (rw [h]; decide)
          · simp only [List.mem_cons, List.not_mem_nil, or_false] at hl
            rcases hl with h | h <;> (rw [h]; decide)
    · rw [eq_of_mem_ite_singleton hl]; decide
  · rw [eq_of_mem_ite_singleton hl]; decide

theorem riskLines_not_header (s : SeverityResult) (d : Option Str) :
    ∀ l ∈ splitOnNL (generateRiskConsiderations s d), isHeaderLine l = false := by
  intro l hl
  rw [generateRiskConsiderations,
    splitOnNL_joinNL (riskList_ne_nil s d) (riskList_noNL s d)] at hl
  exact riskList_not_header s d l hl

theorem not_header_dash (x : Str) : isHeaderLine (lit "- " ++ x) = false := rfl

theorem not_header_nil : isHeaderLine [] = false := rfl

theorem commitLines_not_header (c : Option Str) :
    ∀ l ∈ splitOnNL (commitListStr c), isHeaderLine l = false := by
  intro l hl
  cases c with
  | none =>
    rw [show commitListStr none = lit "- No commits" from rfl,
      splitOnNL_of_noNL (by decide)] at hl
    rw [List.mem_singleton.1 hl]; decide
  | some s =>
    by_cases hs : s.isEmpty = true
    · rw [show commitListStr (some s) = lit "- No commits" by simp [commitListStr, hs]] at hl
      rw [splitOnNL_of_noNL (by decide)] at hl
      rw [List.mem_singleton.1 hl]; decide
    · rw [show commitListStr (some s) =
          joinNL (((splitOnNL s).filter (fun x => !(jsTrim x).isEmpty)).map
            (fun x => lit "- " ++ x)) by simp [commitListStr, hs]] at hl
      rcases eq_or_ne (((splitOnNL s).filter (fun x => !(jsTrim x).isEmpty)).map
          (fun x => lit "- " ++ x)) [] with hni | hni
      · rw [hni] at hl
        rw [show joinNL [] = ([] : Str) from rfl] at hl
        rw [show splitOnNL ([] : Str) = [[]] from rfl] at hl
        rw [List.mem_singleton.1 hl]; decide
      · rw [splitOnNL_joinNL hni ?hm] at hl
        case hm =>
          intro x hx
          obtain ⟨y, hy, rfl⟩ := List.mem_map.1 hx
          exact noNL_app (by decide) (noNL_of_mem_splitOnNL (List.mem_filter.1 hy).1)
        obtain ⟨y, _, rfl⟩ := List.mem_map.1 hl
        exact not_header_dash y

theorem fileLines_not_header (fs : Option Str) :
    ∀ l ∈ splitOnNL (fileListStr fs), isHeaderLine l = false := by
  intro l hl
  rw [fileListStr] at hl
  split at hl
  · rename_i hpos
    have hne : (fileLinesOf fs).map (fun f => lit "- " ++ jsTrim f) ≠ [] := by
      intro h0
      rw [List.map_eq_nil_iff] at h0
      rw [h0] at hpos
      simp at hpos
    rw [splitOnNL_joinNL hne ?hm] at hl
    case hm =>
      intro x hx
      obtain ⟨y, hy, rfl⟩ := List.mem_map.1 hx
      refine noNL_app (by decide) (noNL_jsTrim ?_)
      cases fs with
      | none => simp [fileLinesOf] at hy
      | some f =>
        by_cases hf : f.isEmpty = true
        · simp [fileLinesOf, hf] at hy
        · simp only [fileLinesOf, hf, if_false] at hy
          have hy2 := List.take_subset 10 _ hy
          exact noNL_of_mem_splitOnNL (List.mem_filter.1 hy2).1
    obtain ⟨y, _, rfl⟩ := List.mem_map.1 hl
    exact not_header_dash (jsTrim y)
  · rw [splitOnNL_of_noNL (by decide)] at hl
    rw [List.mem_singleton.1 hl]; decide

theorem splitOnNL_nil : splitOnNL ([] : Str) = [[]] := rfl

/-- Line decomposition of the rendered description: the fixed template lines
in order, with the four multi-line components contributing their own lines. -/
theorem buildPR_lines (commits fileStats diffOutput : Option Str) (s : SeverityResult)
    (hlev : noNL s.level = true) (hreas : noNL s.reasoning = true) :
    splitOnNL (buildPRDescription commits fileStats diffOutput s) =
      [lit "## Summary",
       lit "This PR introduces changes across " ++ natToStr s.metrics.filesChanged ++
         lit " file(s) with " ++ natToStr s.metrics.insertions ++ lit " insertions and " ++
         natToStr s.metrics.deletions ++ lit " deletions.",
       [],
       lit "## Severity: " ++ s.level,
       lit "**Reasoning:** " ++ s.reasoning,
       [],
       lit "**Metrics:**",
       lit "- Lines Changed: " ++ natToStr s.metrics.linesChanged,
       lit "- Files Modified: " ++ natToStr s.metrics.filesChanged,
       lit "- Insertions: +" ++ natToStr s.metrics.insertions,
       lit "- Deletions: -" ++ natToStr s.metrics.deletions,
       [],
       lit "## Changes Made"] ++
      splitOnNL (commitListStr commits) ++
      [[], lit "## Files Modified"] ++
      splitOnNL (fileListStr fileStats) ++
      [[], lit "## Impact Analysis"] ++
      splitOnNL (determineImpactAreas diffOutput commits) ++
      [[], lit "## Risks & Considerations"] ++
      splitOnNL (generateRiskConsiderations s diffOutput) ++
      [[], lit "---", lit "*Generated with GitHub Copilot analysis*"] := by
  have e1 : splitOnNL (lit "## Summary") = [lit "## Summary"] :=
    splitOnNL_of_noNL (by decide)
  have e2 : splitOnNL (lit "This PR introduces changes across " ++
      natToStr s.metrics.filesChanged ++ lit " file(s) with " ++
      natToStr s.metrics.insertions ++ lit " insertions and " ++
      natToStr s.metrics.deletions ++ lit " deletions.") =
      [lit "This PR introduces changes across " ++ natToStr s.metrics.filesChanged ++
        lit " file(s) with " ++ natToStr s.metrics.insertions ++ lit " insertions and " ++
        natToStr s.metrics.deletions ++ lit " deletions."] :=
    splitOnNL_of_noNL (noNL_app (noNL_app (noNL_app (noNL_app (noNL_app (noNL_app
      (by decide) (natToStr_noNL _)) (by decide)) (natToStr_noNL _)) (by decide))
      (natToStr_noNL _)) (by decide))
  have e4 : splitOnNL (lit "## Severity: " ++ s.level) = [lit "## Severity: " ++ s.level] :=
    splitOnNL_of_noNL (noNL_app (by decide) hlev)
  have e5 : splitOnNL (lit "**Reasoning:** " ++ s.reasoning) =
      [lit "**Reasoning:** " ++ s.reasoning] :=
    splitOnNL_of_noNL (noNL_app (by decide) hreas)
  have e7 : splitOnNL (lit "**Metrics:**") = [lit "**Metrics:**"] :=
    splitOnNL_of_noNL (by decide)
  have e8 : splitOnNL (lit "- Lines Changed: " ++ natToStr s.metrics.linesChanged) =
      [lit "- Lines Changed: " ++ natToStr s.metrics.linesChanged] :=
    splitOnNL_of_noNL (noNL_app (by decide) (natToStr_noNL _))
  have e9 : splitOnNL (lit "- Files Modified: " ++ natToStr s.metrics.filesChanged) =
      [lit "- Files Modified: " ++ natToStr s.metrics.filesChanged] :=
    splitOnNL_of_noNL (noNL_app (by decide) (natToStr_noNL _))
  have e10 : splitOnNL (lit "- Insertions: +" ++ natToStr s.metrics.insertions) =
      [lit "- Insertions: +" ++ natToStr s.metrics.insertions] :=
    splitOnNL_of_noNL (noNL_app (by decide) (natToStr_noNL _))
  have e11 : splitOnNL (lit "- Deletions: -" ++ natToStr s.metrics.deletions) =
      [lit "- Deletions: -" ++ natToStr s.metrics.deletions] :=
    splitOnNL_of_noNL (noNL_app (by decide) (natToStr_noNL _))
  have e13 : splitOnNL (lit "## Changes Made") = [lit "## Changes Made"] :=
    splitOnNL_of_noNL (by decide)
  have e16 : splitOnNL (lit "## Files Modified") = [lit "## Files Modified"] :=
    splitOnNL_of_noNL (by decide)
  have e19 : splitOnNL (lit "## Impact Analysis") = [lit "## Impact Analysis"] :=
    splitOnNL_of_noNL (by decide)
  have e22 : splitOnNL (lit "## Risks & Considerations") = [lit "## Risks & Considerations"] :=
    splitOnNL_of_noNL (by decide)
  have e25 : splitOnNL (lit "---") = [lit "---"] := splitOnNL_of_noNL (by decide)
  have e26 : splitOnNL (lit "*Generated with GitHub Copilot analysis*") =
      [lit "*Generated with GitHub Copilot analysis*"] := splitOnNL_of_noNL (by decide)
  rw [buildPRDescription]
  simp only [splitOnNL_joinNL_cons, joinNL_single, splitOnNL_nil,
    e1, e2, e4, e5, e7, e8, e9, e10, e11, e13, e16, e19, e22, e25, e26]
  simp [List.append_assoc]

/-- Claim C7: for every input triple, the rendered Markdown contains exactly
the six top-level headers, in order: `## Summary`, `## Severity: ` followed
by one of the four level names, `## Changes Made`, `## Files Modified`,
`## Impact Analysis`, `## Risks & Considerations`, followed by a horizontal
rule and the attribution line as the final two lines. -/
theorem c7_markdown_headers (d fs c : Option Str) :
    ((splitOnNL (buildPRDescription c fs d (analyzeSeverity d fs c))).filter isHeaderLine =
      [lit "## Summary", lit "## Severity: " ++ (analyzeSeverity d fs c).level,
       lit "## Changes Made", lit "## Files Modified", lit "## Impact Analysis",
       lit "## Risks & Considerations"]) ∧
    ((analyzeSeverity d fs c).level = lit "Low" ∨ (analyzeSeverity d fs c).level = lit "Medium" ∨
      (analyzeSeverity d fs c).level = lit "High" ∨
      (analyzeSeverity d fs c).level = lit "Critical") ∧
    (∃ pre, splitOnNL (buildPRDescription c fs d (analyzeSeverity d fs c)) =
      pre ++ [[], lit "---", lit "*Generated with GitHub Copilot analysis*"]) := by
  have hdec := buildPR_lines c fs d (analyzeSeverity d fs c)
    (analyzeSeverity_level_noNL d fs c) (analyzeSeverity_reasoning_noNL d fs c)
  refine ⟨?_, analyzeSeverity_level_cases d fs c, ⟨_, by rw [hdec]⟩⟩
  rw [hdec]
  simp only [List.filter_append]
  rw [show (splitOnNL (commitListStr c)).filter isHeaderLine = [] from
      List.filter_eq_nil_iff.2 (fun l hl => by simp [commitLines_not_header c l hl]),
    show (splitOnNL (fileListStr fs)).filter isHeaderLine = [] from
      List.filter_eq_nil_iff.2 (fun l hl => by simp [fileLines_not_header fs l hl]),
    show (splitOnNL (determineImpactAreas d c)).filter isHeaderLine = [] from
      List.filter_eq_nil_iff.2 (fun l hl => by simp [impactLines_not_header d c l hl]),
    show (splitOnNL (generateRiskConsiderations (analyzeSeverity d fs c) d)).filter
        isHeaderLine = [] from
      List.filter_eq_nil_iff.2 (fun l hl =>
        by simp [riskLines_not_header (analyzeSeverity d fs c) d l hl])]
  rfl

/-- Counterexample for claim C6: a stat text whose totals line is plural
("2 files changed, ...") is NOT filtered out by the renderer's
`!f.includes('file changed')` check (which only matches the singular
wording), so a summary totals line does appear among the listed files and
in the rendered Files Modified bullets. -/
theorem c6_files_modified_counterexample :
    fileLinesOf (some (lit
        " a.js | 1 +\n b.js | 1 +\n 2 files changed, 2 insertions(+), 2 deletions(-)")) =
      [lit " a.js | 1 +", lit " b.js | 1 +",
       lit " 2 files changed, 2 insertions(+), 2 deletions(-)"] ∧
    strIncludes (lit " 2 files changed, 2 insertions(+), 2 deletions(-)")
      (lit "files changed") = true ∧
    strIncludes (fileListStr (some (lit
        " a.js | 1 +\n b.js | 1 +\n 2 files changed, 2 insertions(+), 2 deletions(-)")))
      (lit "- 2 files changed, 2 insertions(+), 2 deletions(-)") = true := by
  exact ⟨by decide, by decide, by decide⟩

/-- Claim C6 (amended): the Files Modified section lists exactly the first
10 lines of `fileStats` that are non-blank and do not contain the literal
substring "file changed" (each trimmed and bulleted); this excludes the
singular "1 file changed" totals line but keeps plural "N files changed"
totals lines, and the "No files" placeholder is used when no line remains
(in particular when `fileStats` is null or empty). -/
theorem c6_files_modified_amended (d fs c : Option Str) :
    (∃ pre suf, splitOnNL (buildPRDescription c fs d (analyzeSeverity d fs c)) =
      pre ++ [lit "## Files Modified"] ++ splitOnNL (fileListStr fs) ++ [[]] ++ suf) ∧
    (∀ f : Str, fs = some f → f.isEmpty = false →
      fileLinesOf fs = ((splitOnNL f).filter
        (fun l => !(jsTrim l).isEmpty && !strIncludes l (lit "file changed"))).take 10) ∧
    (∀ l ∈ fileLinesOf fs, strIncludes l (lit "file changed") = false) ∧
    (fileLinesOf fs = [] → fileListStr fs = lit "- No files") := by
  have hdec := buildPR_lines c fs d (analyzeSeverity d fs c)
    (analyzeSeverity_level_noNL d fs c) (analyzeSeverity_reasoning_noNL d fs c)
  refine ⟨?_, ?_, ?_, ?_⟩
  · refine ⟨[lit "## Summary",
       lit "This PR introduces changes across " ++
         natToStr (analyzeSeverity d fs c).metrics.filesChanged ++
         lit " file(s) with " ++ natToStr (analyzeSeverity d fs c).metrics.insertions ++
         lit " insertions and " ++ natToStr (analyzeSeverity d fs c).metrics.deletions ++
         lit " deletions.",
       [],
       lit "## Severity: " ++ (analyzeSeverity d fs c).level,
       lit "**Reasoning:** " ++ (analyzeSeverity d fs c).reasoning,
       [],
       lit "**Metrics:**",
       lit "- Lines Changed: " ++ natToStr (analyzeSeverity d fs c).metrics.linesChanged,
       lit "- Files Modified: " ++ natToStr (analyzeSeverity d fs c).metrics.filesChanged,
       lit "- Insertions: +" ++ natToStr (analyzeSeverity d fs c).metrics.insertions,
       lit "- Deletions: -" ++ natToStr (analyzeSeverity d fs c).metrics.deletions,
       [],
       lit "## Changes Made"] ++
      splitOnNL (commitListStr c) ++ [[]],
      [lit "## Impact Analysis"] ++
      splitOnNL (determineImpactAreas d c) ++
      [[], lit "## Risks & Considerations"] ++
      splitOnNL (generateRiskConsiderations (analyzeSeverity d fs c) d) ++
      [[], lit "---", lit "*Generated with GitHub Copilot analysis*"], ?_⟩
    rw [hdec]
    simp [List.append_assoc]
  · intro f hf hne
    subst hf
    simp [fileLinesOf, hne]
  · intro l hl
    cases fs with
    | none => simp [fileLinesOf] at hl
    | some f =>
      by_cases hf : f.isEmpty = true
      · simp [fileLinesOf, hf] at hl
      · simp only [fileLinesOf, hf, if_false] at hl
        have hl2 := List.take_subset 10 _ hl
        have := (List.mem_filter.1 hl2).2
        simp only [Bool.and_eq_true, Bool.not_eq_true'] at this
        exact this.2
  · intro h0
    rw [fileListStr, h0]
    rfl

/-- Witness for the amended C6: a concrete stat text with a singular totals
line has that line filtered out of the listed files. -/
theorem c6_files_modified_amended_witness :
    fileLinesOf (some (lit " x.js | 2 ++\n 1 file changed, 2 insertions(+)")) =
      ((splitOnNL (lit " x.js | 2 ++\n 1 file changed, 2 insertions(+)")).filter
        (fun l => !(jsTrim l).isEmpty && !strIncludes l (lit "file changed"))).take 10 :=
  (c6_files_modified_amended none
    (some (lit " x.js | 2 ++\n 1 file changed, 2 insertions(+)")) none).2.1
    (lit " x.js | 2 ++\n 1 file changed, 2 insertions(+)") rfl (by decide)

/-! ### Totality of the classifier (claim C8) and the boundary guard -/

theorem takeWhile_of_all {p : Char → Bool} :
    ∀ {l : Str}, l.all p = true → l.takeWhile p = l := by
  intro l
  induction l with
  | nil => intro _; rfl
  | cons c t ih =>
    intro h
    simp only [List.all_cons, Bool.and_eq_true] at h
    simp [List.takeWhile_cons, h.1, ih h.2]

theorem takeWhile_all (p : Char → Bool) :
    ∀ l : Str, (l.takeWhile p).all p = true := by
  intro l
  induction l with
  | nil => rfl
  | cons c t ih =>
    by_cases hc : p c = true
    · simp [List.takeWhile_cons, hc, ih]
    · simp [List.takeWhile_cons, hc]

theorem matchNumThen_some_digits {alts : List Str} :
    ∀ {s ds : Str}, matchNumThen alts s = some ds →
      ds.isEmpty = false ∧ ds.all Char.isDigit = true := by
  intro s
  induction s with
  | nil => intro ds h; simp [matchNumThen] at h
  | cons c t ih =>
    intro ds h
    simp only [matchNumThen] at h
    split at h
    · rename_i hcond
      obtain rfl := Option.some.inj h
      simp only [Bool.and_eq_true, Bool.not_eq_true'] at hcond
      exact ⟨hcond.1, takeWhile_all Char.isDigit (c :: t)⟩
    · exact ih h

theorem parseIntOpt_digits {ds : Str} (hne : ds.isEmpty = false)
    (hall : ds.all Char.isDigit = true) : parseIntOpt ds = some (parseIntJS ds) := by
  rw [parseIntOpt, parseIntJS]
  simp only [takeWhile_of_all hall, hne]
  rfl

theorem capture_parseIntOpt {fs : Option Str} {alts : List Str} {ds : Str}
    (h : fs.bind (matchNumThen alts) = some ds) :
    parseIntOpt ds = some (parseIntJS ds) := by
  cases fs with
  | none => simp at h
  | some s =>
    simp only [Option.bind] at h
    obtain ⟨h1, h2⟩ := matchNumThen_some_digits h
    exact parseIntOpt_digits h1 h2

theorem analyzeSeverityChecked_eq (d fs c : Option Str) :
    analyzeSeverityChecked d fs c = some (analyzeSeverity d fs c) := by
  unfold analyzeSeverityChecked analyzeSeverity
  cases hins : insertionsCapture fs with
  | none =>
    cases hdel : deletionsCapture fs with
    | none =>
      cases hfil : filesCapture fs with
      | none =>
        simp only [apply_ite Option.some]
        try rfl
      | some ds3 =>
        simp only [capture_parseIntOpt hfil, apply_ite Option.some]
        try rfl
    | some ds2 =>
      cases hfil : filesCapture fs with
      | none =>
        simp only [capture_parseIntOpt hdel, apply_ite Option.some]
        try rfl
      | some ds3 =>
        simp only [capture_parseIntOpt hdel, capture_parseIntOpt hfil, apply_ite Option.some]
        try rfl
  | some ds1 =>
    cases hdel : deletionsCapture fs with
    | none =>
      cases hfil : filesCapture fs with
      | none =>
        simp only [capture_parseIntOpt hins, apply_ite Option.some]
        try rfl
      | some ds3 =>
        simp only [capture_parseIntOpt hins, capture_parseIntOpt hfil, apply_ite Option.some]
        try rfl
    | some ds2 =>
      cases hfil : filesCapture fs with
      | none =>
        simp only [capture_parseIntOpt hins, capture_parseIntOpt hdel, apply_ite Option.some]
        try rfl
      | some ds3 =>
        simp only [capture_parseIntOpt hins, capture_parseIntOpt hdel,
          capture_parseIntOpt hfil, apply_ite Option.some]
        try rfl

/-- Claim C8: the classifier is total — the checked variant (with every
fallible parse made explicit) always succeeds and agrees with
`analyzeSeverity`; every non-matching pattern silently defaults its metric
to 0; and when no tier condition holds the classifier falls through to the
Low default, so the caller's error branch is unreachable from the
classification itself. -/
theorem c8_classifier_never_fails (d fs c : Option Str) :
    analyzeSeverityChecked d fs c = some (analyzeSeverity d fs c) ∧
    (insertionsCapture fs = none → deletionsCapture fs = none → filesCapture fs = none →
      (analyzeSeverity d fs c).metrics = ⟨0, 0, 0, 0⟩) ∧
    (critCond d c = false → highCond d fs = false → medCond d fs = false →
      (analyzeSeverity d fs c).level = lit "Low") := by
  refine ⟨analyzeSeverityChecked_eq d fs c, ?_, ?_⟩
  · intro h1 h2 h3
    rw [analyzeSeverity_metrics]
    cases fs with
    | none => rfl
    | some s =>
      simp only [insertionsCapture, deletionsCapture, filesCapture, Option.bind] at h1 h2 h3
      simp [extractMetrics, orEmpty, h1, h2, h3]
  · intro h1 h2 h3
    rw [analyzeSeverity_eq]
    simp [h1, h2, h3]

/-- Witness for C8: at the all-empty input the classifier succeeds with
all-zero metrics and the Low default. -/
theorem c8_classifier_never_fails_witness :
    (analyzeSeverity none none none).metrics = ⟨0, 0, 0, 0⟩ ∧
      (analyzeSeverity none none none).level = lit "Low" :=
  ⟨(c8_classifier_never_fails none none none).2.1 rfl rfl rfl,
   (c8_classifier_never_fails none none none).2.2 (by decide) (by decide) (by decide)⟩

/-- Claim C9: when the diff between base and head is empty or absent,
`generateCopilotPRDescription` returns null before classifying or
rendering; a description is built only for a truthy diff. -/
theorem c9_null_on_empty_diff (diffOutput commits fileStats copilotResult : Option Str) :
    (truthy diffOutput = false →
      generateCopilotPRDescription diffOutput commits fileStats copilotResult = none) ∧
    (truthy diffOutput = true →
      generateCopilotPRDescription diffOutput commits fileStats copilotResult =
        some (buildPRDescription commits fileStats diffOutput
          (analyzeSeverity diffOutput fileStats commits))) := by
  constructor <;> intro h <;> simp [generateCopilotPRDescription, h]

/-- Witness for C9: the empty diff string (and the absent diff) both yield
null. -/
theorem c9_null_on_empty_diff_witness :
    generateCopilotPRDescription (some []) none none none = none ∧
      generateCopilotPRDescription none none none none = none :=
  ⟨(c9_null_on_empty_diff (some []) none none none).1 (by decide),
   (c9_null_on_empty_diff none none none none).1 (by decide)⟩

/-- Claim C10: `exec` never propagates a subprocess failure (it returns null
instead) and trims successful output in silent mode; consequently
`getCurrentBranch` and `getDefaultBranch` return null, rather than
throwing, when every underlying git command fails. -/
theorem c10_exec_never_throws :
    (∀ b : Bool, exec none b = none) ∧
    (∀ o : Str, exec (some o) true = some (jsTrim o)) ∧
    (∀ env : Str → Option Str, (∀ cmd, env cmd = none) →
      getCurrentBranch env = none ∧ getDefaultBranch env = none) := by
  refine ⟨fun b => rfl, fun o => rfl, fun env henv => ⟨?_, ?_⟩⟩
  · simp [getCurrentBranch, exec, henv]
  · simp [getDefaultBranch, exec, truthy, henv]

/-- Witness for C10: with an environment in which every command fails, both
branch lookups return null. -/
theorem c10_exec_never_throws_witness :
    getCurrentBranch (fun _ => none) = none ∧ getDefaultBranch (fun _ => none) = none :=
  c10_exec_never_throws.2.2 (fun _ => none) (fun _ => rfl)
